import Mathlib

/-! Error-code registry of the nRF51 IoT SDK (`iot_errors.h`) and the UDP input contract
(`udp.h`).

Shallow embedding of `components/iot/include/iot_errors.h` and of the interface declared in
`components/iot/ipv6_stack/udp/udp.h`.

* Error codes are `uint32_t` values; they are embedded as `Nat` with an explicit reduction
  modulo `2 ^ 32` after every addition the header performs.
* `IOT_ERR_BASE_START` and `SDK_COMMON_ERROR_BASE` come from `sdk_errors.h`, which is not part
  of the sources at hand; every definition takes them as a parameter.
* `udp.h` only declares `udp_init` and `udp_input`; their bodies (`udp.c`) are not part of the
  sources at hand and are modelled from the specification.
-/

namespace IotErrors

/-! ## Machine arithmetic -/

/-- Truncation of a natural number to a `uint32_t`. -/
def u32 (n : Nat) : Nat := n % 2 ^ 32

/-! ## `sdk_iot_err_base`: base defined for IoT SDK modules -/

/-- `#define IOT_ERR_BASE IOT_ERR_BASE_START`; the argument is `IOT_ERR_BASE_START`. -/
def IOT_ERR_BASE (start : Nat) : Nat := start

/-! ## `sdk_iot_module_codes`: module codes -/

def BLE_IPSP_ERR_BASE (start : Nat) : Nat := u32 (IOT_ERR_BASE start + 0x0100)
def BLE_6LOWPAN_ERR_BASE (start : Nat) : Nat := u32 (IOT_ERR_BASE start + 0x0200)
def IOT_PBUFFER_ERR_BASE (start : Nat) : Nat := u32 (IOT_ERR_BASE start + 0x1000)
def IOT_CONTEXT_MANAGER_ERR_BASE (start : Nat) : Nat := u32 (IOT_ERR_BASE start + 0x1100)
def IOT_TIMER_ERR_BASE (start : Nat) : Nat := u32 (IOT_ERR_BASE start + 0x1200)
def IOT_IPV6_ERR_BASE (start : Nat) : Nat := u32 (IOT_ERR_BASE start + 0x2000)
def IOT_ICMP6_ERR_BASE (start : Nat) : Nat := u32 (IOT_ERR_BASE start + 0x2100)
def IOT_UDP6_ERR_BASE (start : Nat) : Nat := u32 (IOT_ERR_BASE start + 0x2200)
def IOT_COAP_ERR_BASE (start : Nat) : Nat := u32 (IOT_ERR_BASE start + 0x2300)
def IOT_DNS6_ERR_BASE (start : Nat) : Nat := u32 (IOT_ERR_BASE start + 0x2400)
def IOT_NTP_ERR_BASE (start : Nat) : Nat := u32 (IOT_ERR_BASE start + 0x2500)

/-! ## `iot_sdk_common_errors`: common error codes

The argument is `SDK_COMMON_ERROR_BASE`. -/

def SDK_ERR_MODULE_NOT_INITIALZED (common : Nat) : Nat := u32 (common + 0x0000)
def SDK_ERR_MUTEX_INIT_FAILED (common : Nat) : Nat := u32 (common + 0x0001)
def SDK_ERR_MUTEX_LOCK_FAILED (common : Nat) : Nat := u32 (common + 0x0002)
def SDK_ERR_MUTEX_UNLOCK_FAILED (common : Nat) : Nat := u32 (common + 0x0003)
def SDK_ERR_MUTEX_COND_INIT_FAILED (common : Nat) : Nat := u32 (common + 0x0004)
def SDK_ERR_MODULE_ALREADY_INITIALZED (common : Nat) : Nat := u32 (common + 0x0005)
def SDK_ERR_API_NOT_IMPLEMENTED (common : Nat) : Nat := u32 (common + 0x0010)
def SDK_ERR_FEATURE_NOT_ENABLED (common : Nat) : Nat := u32 (common + 0x0011)
def SDK_ERR_RX_PKT_TRUNCATED (common : Nat) : Nat := u32 (common + 0x0012)

/-! ## Module-specific error codes -/

/-! ### `ble_ipsp_errors` -/
def BLE_IPSP_RX_PKT_TRUNCATED (start : Nat) : Nat := u32 (BLE_IPSP_ERR_BASE start + 0x0040)

/-! ### `ble_6lowpan_errors` -/
def BLE_6LOWPAN_CID_NOT_FOUND (start : Nat) : Nat := u32 (BLE_6LOWPAN_ERR_BASE start + 0x0040)
def BLE_6LOWPAN_TX_FIFO_FULL (start : Nat) : Nat := u32 (BLE_6LOWPAN_ERR_BASE start + 0x0041)

/-! ### `ble_sdk_ipv6` -/
def IOT_IPV6_ERR_ADDR_IF_MISMATCH (start : Nat) : Nat := u32 (IOT_IPV6_ERR_BASE start + 0x0040)

/-! ### `ble_sdk_udp_errors` -/
def UDP_PORT_IN_USE (start : Nat) : Nat := u32 (IOT_UDP6_ERR_BASE start + 0x0040)
def UDP_BAD_CHECKSUM (start : Nat) : Nat := u32 (IOT_UDP6_ERR_BASE start + 0x0041)
def UDP_TRUNCATED_PACKET (start : Nat) : Nat := u32 (IOT_UDP6_ERR_BASE start + 0x0042)
def UDP_MALFORMED_PACKET (start : Nat) : Nat := u32 (IOT_UDP6_ERR_BASE start + 0x0043)
def UDP_INTERFACE_NOT_READY (start : Nat) : Nat := u32 (IOT_UDP6_ERR_BASE start + 0x0044)

/-! ### `ble_sdk_icmp6_errors` -/
def ICMP6_UNHANDLED_PACKET_TYPE (start : Nat) : Nat := u32 (IOT_ICMP6_ERR_BASE start + 0x0040)
def ICMP6_BAD_CHECKSUM (start : Nat) : Nat := u32 (IOT_ICMP6_ERR_BASE start + 0x0041)
def ICMP6_MALFORMED_PACKET (start : Nat) : Nat := u32 (IOT_ICMP6_ERR_BASE start + 0x0042)
def ICMP6_INVALID_PACKET_DATA (start : Nat) : Nat := u32 (IOT_ICMP6_ERR_BASE start + 0x0043)

/-! ### `ble_sdk_coap_errros` -/
def COAP_MESSAGE_ERROR_NULL (start : Nat) : Nat := u32 (IOT_COAP_ERR_BASE start + 0x0040)
def COAP_MESSAGE_ERROR_INVALID_CONF (start : Nat) : Nat := u32 (IOT_COAP_ERR_BASE start + 0x0041)
def COAP_MESSAGE_INVALID_CONTENT (start : Nat) : Nat := u32 (IOT_COAP_ERR_BASE start + 0x0042)
def COAP_TRANSMISSION_RESET_BY_PEER (start : Nat) : Nat := u32 (IOT_COAP_ERR_BASE start + 0x0043)
def COAP_TRANSMISSION_TIMEOUT (start : Nat) : Nat := u32 (IOT_COAP_ERR_BASE start + 0x0044)

/-! ### `ble_sdk_dns6_errors` -/
def DNS6_SERVER_UNREACHABLE (start : Nat) : Nat := u32 (IOT_DNS6_ERR_BASE start + 0x0040)
def DNS6_FORMAT_ERROR (start : Nat) : Nat := u32 (IOT_DNS6_ERR_BASE start + 0x0041)
def DNS6_SERVER_FAILURE (start : Nat) : Nat := u32 (IOT_DNS6_ERR_BASE start + 0x0042)
def DNS6_HOSTNAME_NOT_FOUND (start : Nat) : Nat := u32 (IOT_DNS6_ERR_BASE start + 0x0043)
def DNS6_NOT_IMPLEMENTED (start : Nat) : Nat := u32 (IOT_DNS6_ERR_BASE start + 0x0044)
def DNS6_REFUSED_ERROR (start : Nat) : Nat := u32 (IOT_DNS6_ERR_BASE start + 0x0045)
def DNS6_RESPONSE_TRUNCATED (start : Nat) : Nat := u32 (IOT_DNS6_ERR_BASE start + 0x0046)

/-! ### `ble_sdk_ntp_errors` -/
def NTP_SERVER_UNREACHABLE (start : Nat) : Nat := u32 (IOT_NTP_ERR_BASE start + 0x0040)
def NTP_SERVER_BAD_RESPONSE (start : Nat) : Nat := u32 (IOT_NTP_ERR_BASE start + 0x0041)
def NTP_SERVER_KOD_PACKET_RECEIVED (start : Nat) : Nat := u32 (IOT_NTP_ERR_BASE start + 0x0042)

/-! ## The registry as tables

The header is a flat list of `#define`s.  To quantify over "every module" and "every code"
the constants above are collected in tables, in the order of the header. -/

/-- The modules that own a `*_ERR_BASE` constant in `sdk_iot_module_codes`. -/
inductive Module
  | BLE_IPSP | BLE_6LOWPAN | IOT_PBUFFER | IOT_CONTEXT_MANAGER | IOT_TIMER
  | IOT_IPV6 | IOT_ICMP6 | IOT_UDP6 | IOT_COAP | IOT_DNS6 | IOT_NTP
  deriving DecidableEq, Repr

/-- All eleven modules, in the order of the header. -/
def Module.all : List Module :=
  [.BLE_IPSP, .BLE_6LOWPAN, .IOT_PBUFFER, .IOT_CONTEXT_MANAGER, .IOT_TIMER,
   .IOT_IPV6, .IOT_ICMP6, .IOT_UDP6, .IOT_COAP, .IOT_DNS6, .IOT_NTP]

/-- The `*_ERR_BASE` constant of a module. -/
def Module.base (start : Nat) : Module → Nat
  | .BLE_IPSP => BLE_IPSP_ERR_BASE start
  | .BLE_6LOWPAN => BLE_6LOWPAN_ERR_BASE start
  | .IOT_PBUFFER => IOT_PBUFFER_ERR_BASE start
  | .IOT_CONTEXT_MANAGER => IOT_CONTEXT_MANAGER_ERR_BASE start
  | .IOT_TIMER => IOT_TIMER_ERR_BASE start
  | .IOT_IPV6 => IOT_IPV6_ERR_BASE start
  | .IOT_ICMP6 => IOT_ICMP6_ERR_BASE start
  | .IOT_UDP6 => IOT_UDP6_ERR_BASE start
  | .IOT_COAP => IOT_COAP_ERR_BASE start
  | .IOT_DNS6 => IOT_DNS6_ERR_BASE start
  | .IOT_NTP => IOT_NTP_ERR_BASE start

/-- The eleven module base constants, in the order of the header. -/
def module_bases (start : Nat) : List Nat :=
  [BLE_IPSP_ERR_BASE start, BLE_6LOWPAN_ERR_BASE start, IOT_PBUFFER_ERR_BASE start,
   IOT_CONTEXT_MANAGER_ERR_BASE start, IOT_TIMER_ERR_BASE start, IOT_IPV6_ERR_BASE start,
   IOT_ICMP6_ERR_BASE start, IOT_UDP6_ERR_BASE start, IOT_COAP_ERR_BASE start,
   IOT_DNS6_ERR_BASE start, IOT_NTP_ERR_BASE start]

/-- One module-specific `#define`: the module whose base it adds to, the literal cause it adds,
and the value of the constant. -/
structure ErrorDef where
  owner : Module
  cause : Nat
  value : Nat
  deriving DecidableEq, Repr

/-- Every module-specific error code of the header (lines 104 to 188), in order. -/
def module_error_defs (start : Nat) : List ErrorDef :=
  [⟨.BLE_IPSP, 0x0040, BLE_IPSP_RX_PKT_TRUNCATED start⟩,
   ⟨.BLE_6LOWPAN, 0x0040, BLE_6LOWPAN_CID_NOT_FOUND start⟩,
   ⟨.BLE_6LOWPAN, 0x0041, BLE_6LOWPAN_TX_FIFO_FULL start⟩,
   ⟨.IOT_IPV6, 0x0040, IOT_IPV6_ERR_ADDR_IF_MISMATCH start⟩,
   ⟨.IOT_UDP6, 0x0040, UDP_PORT_IN_USE start⟩,
   ⟨.IOT_UDP6, 0x0041, UDP_BAD_CHECKSUM start⟩,
   ⟨.IOT_UDP6, 0x0042, UDP_TRUNCATED_PACKET start⟩,
   ⟨.IOT_UDP6, 0x0043, UDP_MALFORMED_PACKET start⟩,
   ⟨.IOT_UDP6, 0x0044, UDP_INTERFACE_NOT_READY start⟩,
   ⟨.IOT_ICMP6, 0x0040, ICMP6_UNHANDLED_PACKET_TYPE start⟩,
   ⟨.IOT_ICMP6, 0x0041, ICMP6_BAD_CHECKSUM start⟩,
   ⟨.IOT_ICMP6, 0x0042, ICMP6_MALFORMED_PACKET start⟩,
   ⟨.IOT_ICMP6, 0x0043, ICMP6_INVALID_PACKET_DATA start⟩,
   ⟨.IOT_COAP, 0x0040, COAP_MESSAGE_ERROR_NULL start⟩,
   ⟨.IOT_COAP, 0x0041, COAP_MESSAGE_ERROR_INVALID_CONF start⟩,
   ⟨.IOT_COAP, 0x0042, COAP_MESSAGE_INVALID_CONTENT start⟩,
   ⟨.IOT_COAP, 0x0043, COAP_TRANSMISSION_RESET_BY_PEER start⟩,
   ⟨.IOT_COAP, 0x0044, COAP_TRANSMISSION_TIMEOUT start⟩,
   ⟨.IOT_DNS6, 0x0040, DNS6_SERVER_UNREACHABLE start⟩,
   ⟨.IOT_DNS6, 0x0041, DNS6_FORMAT_ERROR start⟩,
   ⟨.IOT_DNS6, 0x0042, DNS6_SERVER_FAILURE start⟩,
   ⟨.IOT_DNS6, 0x0043, DNS6_HOSTNAME_NOT_FOUND start⟩,
   ⟨.IOT_DNS6, 0x0044, DNS6_NOT_IMPLEMENTED start⟩,
   ⟨.IOT_DNS6, 0x0045, DNS6_REFUSED_ERROR start⟩,
   ⟨.IOT_DNS6, 0x0046, DNS6_RESPONSE_TRUNCATED start⟩,
   ⟨.IOT_NTP, 0x0040, NTP_SERVER_UNREACHABLE start⟩,
   ⟨.IOT_NTP, 0x0041, NTP_SERVER_BAD_RESPONSE start⟩,
   ⟨.IOT_NTP, 0x0042, NTP_SERVER_KOD_PACKET_RECEIVED start⟩]

/-- The values of all module-specific error codes, in the order of the header. -/
def module_error_codes (start : Nat) : List Nat :=
  (module_error_defs start).map ErrorDef.value

/-- The literal causes that the module-specific `#define`s add to a module base. -/
def module_specific_causes : List Nat :=
  (module_error_defs 0).map ErrorDef.cause

/-- The common causes of `iot_sdk_common_errors`, named as in the specification. -/
inductive CommonCause
  | NOT_INITIALIZED | ALREADY_INITIALIZED | MUTEX_INIT_FAILED | MUTEX_LOCK_FAILED
  | MUTEX_UNLOCK_FAILED | MUTEX_COND_INIT_FAILED | API_NOT_IMPLEMENTED
  | FEATURE_NOT_ENABLED | RX_PACKET_TRUNCATED
  deriving DecidableEq, Repr

/-- The `SDK_ERR_*` constant that defines a common cause. -/
def common_cause (common : Nat) : CommonCause → Nat
  | .NOT_INITIALIZED => SDK_ERR_MODULE_NOT_INITIALZED common
  | .ALREADY_INITIALIZED => SDK_ERR_MODULE_ALREADY_INITIALZED common
  | .MUTEX_INIT_FAILED => SDK_ERR_MUTEX_INIT_FAILED common
  | .MUTEX_LOCK_FAILED => SDK_ERR_MUTEX_LOCK_FAILED common
  | .MUTEX_UNLOCK_FAILED => SDK_ERR_MUTEX_UNLOCK_FAILED common
  | .MUTEX_COND_INIT_FAILED => SDK_ERR_MUTEX_COND_INIT_FAILED common
  | .API_NOT_IMPLEMENTED => SDK_ERR_API_NOT_IMPLEMENTED common
  | .FEATURE_NOT_ENABLED => SDK_ERR_FEATURE_NOT_ENABLED common
  | .RX_PACKET_TRUNCATED => SDK_ERR_RX_PKT_TRUNCATED common

/-- The nine common error codes, in the order of the header (lines 87 to 95). -/
def common_error_codes (common : Nat) : List Nat :=
  [SDK_ERR_MODULE_NOT_INITIALZED common, SDK_ERR_MUTEX_INIT_FAILED common,
   SDK_ERR_MUTEX_LOCK_FAILED common, SDK_ERR_MUTEX_UNLOCK_FAILED common,
   SDK_ERR_MUTEX_COND_INIT_FAILED common, SDK_ERR_MODULE_ALREADY_INITIALZED common,
   SDK_ERR_API_NOT_IMPLEMENTED common, SDK_ERR_FEATURE_NOT_ENABLED common,
   SDK_ERR_RX_PKT_TRUNCATED common]

/-! ## The encoding described by the header comment and the specification -/

/-- Modelled from the spec: `compose(module_id, cause_id)`, which the header describes in its
comment but does not define: the 32-bit value `(module_id << 16) | cause_id`. -/
def compose (module_id cause_id : Nat) : Nat := u32 ((module_id <<< 16) ||| cause_id)

/-- Modelled from the spec: `decompose(code)`, which the header describes in its comment but
does not define: the pair `(code >> 16, code & 0xFFFF)`. -/
def decompose (code : Nat) : Nat × Nat := (code >>> 16, code &&& 0xFFFF)

/-! ## Auxiliary tables -/

/-- The literal that the `*_ERR_BASE` constant of a module adds to `IOT_ERR_BASE`, divided by
`0x0100`. -/
def Module.slot : Module → Nat
  | .BLE_IPSP => 0x01
  | .BLE_6LOWPAN => 0x02
  | .IOT_PBUFFER => 0x10
  | .IOT_CONTEXT_MANAGER => 0x11
  | .IOT_TIMER => 0x12
  | .IOT_IPV6 => 0x20
  | .IOT_ICMP6 => 0x21
  | .IOT_UDP6 => 0x22
  | .IOT_COAP => 0x23
  | .IOT_DNS6 => 0x24
  | .IOT_NTP => 0x25

/-- The (module, cause) pairs of the module-specific `#define`s; they do not depend on
`IOT_ERR_BASE_START`. -/
def module_error_keys : List (Module × Nat) :=
  (module_error_defs 0).map (fun d => (d.owner, d.cause))

/-! ## The UDP input contract (`udp.h`)

`udp.h` declares `udp_init` and `udp_input`; their bodies are not part of the sources at hand.
The definitions of this section follow the specification of the packet dispatcher. -/

/-- Modelled from the spec: the success value `NRF_SUCCESS` named by `udp.h`, which is defined
outside the sources at hand; the zero code means success. -/
def NRF_SUCCESS : Nat := 0

/-- Modelled from the spec: the fixed header size of the protocol, 8 bytes. -/
def UDP_HEADER_SIZE : Nat := 8

/-- Modelled from the spec: the value of the next header field for UDP (`udp.h`, note of
`udp_input`), the protocol number of the pseudo-header. -/
def IPV6_NEXT_HEADER_UDP : Nat := 17

/-- Modelled from the spec: `iot_interface_t`, declared outside the sources at hand: the opaque
identifier of the interface on which a packet arrived. -/
structure iot_interface_t where
  handle : Nat
  deriving DecidableEq, Repr

/-- Modelled from the spec: `ipv6_header_t`, declared outside the sources at hand: a read-only
view of the parsed IPv6 header (source and destination address as bytes, next header, hop
limit). -/
structure ipv6_header_t where
  srcaddr : List Nat
  destaddr : List Nat
  next_header : Nat
  hoplimit : Nat
  deriving DecidableEq, Repr

/-- Modelled from the spec: `iot_pbuffer_t`, declared outside the sources at hand: a region of
bytes with a cursor, the offset of the current layer's header and the remaining length. -/
structure iot_pbuffer_t where
  p_buffer : List Nat
  offset : Nat
  length : Nat
  deriving DecidableEq, Repr

/-- Modelled from the spec: the bytes `p_payload` points to, from the cursor on. -/
def iot_pbuffer_t.p_payload (p_packet : iot_pbuffer_t) : List Nat :=
  (p_packet.p_buffer.drop p_packet.offset).take p_packet.length

/-- Modelled from the spec: what `udp_input` does that an observer can see besides its return
value: it validates the checksum, and it invokes the handler registered for a port with the
payload after the UDP header. -/
inductive UdpEvent
  | checksum_validation
  | handler_invocation (port : Nat) (payload : List Nat)
  deriving DecidableEq, Repr

/-- Modelled from the spec: the state of the UDP module: whether `udp_init` has run
(`Uninitialized` or `Initialized`), and the ports with a registered endpoint. -/
structure UdpModule where
  ready : Bool
  endpoints : List Nat
  deriving DecidableEq, Repr

/-- Modelled from the spec: the state before `udp_init` has been called. -/
def UdpModule.uninitialized (endpoints : List Nat) : UdpModule :=
  { ready := false, endpoints := endpoints }

/-- Modelled from the spec: outcome of `udp_input`, the returned code and the observable
events in the order they happen. -/
structure UdpInputResult where
  err_code : Nat
  events : List UdpEvent
  deriving DecidableEq, Repr

/-- Modelled from the spec: a 16-bit big-endian word from two bytes. -/
def be16 (hi lo : Nat) : Nat := (hi % 256) * 256 + lo % 256

/-- Modelled from the spec: the 16-bit words of a byte sequence, an odd last byte padded
with zero. -/
def words16 : List Nat → List Nat
  | [] => []
  | [b] => [be16 b 0]
  | hi :: lo :: rest => be16 hi lo :: words16 rest

/-- Modelled from the spec: one's complement addition of two 16-bit words. -/
def ones_add (a b : Nat) : Nat :=
  if a + b > 0xFFFF then a + b - 0xFFFF else a + b

/-- Modelled from the spec: one's complement sum of the 16-bit words of a byte sequence. -/
def ones_sum (bytes : List Nat) : Nat := (words16 bytes).foldl ones_add 0

/-- Modelled from the spec: the pseudo-header of the checksum: source and destination address
from the IP header, the length as a 32-bit field, and the protocol number. -/
def udp_pseudo_header (p_ip_header : ipv6_header_t) (length : Nat) : List Nat :=
  p_ip_header.srcaddr ++ p_ip_header.destaddr ++
    [length / 2 ^ 24 % 256, length / 2 ^ 16 % 256, length / 2 ^ 8 % 256, length % 256] ++
    [0, 0, 0, IPV6_NEXT_HEADER_UDP]

/-- Modelled from the spec: checksum validation over the pseudo-header plus the datagram
(which carries the checksum field). -/
def udp_checksum_ok (p_ip_header : ipv6_header_t) (datagram : List Nat) : Bool :=
  ones_sum (udp_pseudo_header p_ip_header datagram.length ++ datagram) == 0xFFFF

/-- Modelled from the spec: the destination port field of the UDP header. -/
def udp_destport (datagram : List Nat) : Nat := be16 (datagram.getD 2 0) (datagram.getD 3 0)

/-- Modelled from the spec: the length field of the UDP header. -/
def udp_length_field (datagram : List Nat) : Nat :=
  be16 (datagram.getD 4 0) (datagram.getD 5 0)

/-- Modelled from the spec: structural validation of the header fields: the length field is
consistent with the remaining bytes. -/
def udp_header_ok (p_packet : iot_pbuffer_t) (datagram : List Nat) : Bool :=
  udp_length_field datagram == p_packet.length && datagram.length == p_packet.length

/-- Modelled from the spec: the cause reported when no endpoint is registered for the
destination port ("no listener / interface not ready"); the UDP group of `iot_errors.h` has
one routing cause, `UDP_INTERFACE_NOT_READY`. -/
def udp_no_listener (start : Nat) : Nat := UDP_INTERFACE_NOT_READY start

/-- Modelled from the spec: `udp_init`, the body of which is not part of the sources at hand:
`Uninitialized → Initialized`; a second call fails with the already-initialized cause. -/
def udp_init (start common : Nat) (m : UdpModule) : Nat × UdpModule :=
  if m.ready then
    (compose (IOT_UDP6_ERR_BASE start) (SDK_ERR_MODULE_ALREADY_INITIALZED common), m)
  else
    (NRF_SUCCESS, { m with ready := true })

/-- Modelled from the spec: `udp_input` (`handle_input`), the body of which is not part of the
sources at hand.  Before `udp_init` it fails with the not-initialized cause.  Then, in order
and stopping at the first failure: length check, checksum validation, structural validation,
destination-port lookup, and delivery to the handler of the matched endpoint. -/
def udp_input (start common : Nat) (m : UdpModule) (_p_interface : iot_interface_t)
    (p_ip_header : ipv6_header_t) (p_packet : iot_pbuffer_t) : UdpInputResult :=
  if !m.ready then
    ⟨compose (IOT_UDP6_ERR_BASE start) (SDK_ERR_MODULE_NOT_INITIALZED common), []⟩
  else if p_packet.length < UDP_HEADER_SIZE then
    ⟨UDP_TRUNCATED_PACKET start, []⟩
  else
    let datagram := p_packet.p_payload
    if !udp_checksum_ok p_ip_header datagram then
      ⟨UDP_BAD_CHECKSUM start, [.checksum_validation]⟩
    else if !udp_header_ok p_packet datagram then
      ⟨UDP_MALFORMED_PACKET start, [.checksum_validation]⟩
    else if udp_destport datagram ∈ m.endpoints then
      ⟨NRF_SUCCESS, [.checksum_validation,
        .handler_invocation (udp_destport datagram) (datagram.drop UDP_HEADER_SIZE)]⟩
    else
      ⟨udp_no_listener start, [.checksum_validation]⟩

/-! # Theorems -/

/-! ## Arithmetic helpers -/

theorem u32_lt (n : Nat) : u32 n < 2 ^ 32 := Nat.mod_lt _ (by norm_num)

theorem u32_of_lt {n : Nat} (h : n < 2 ^ 32) : u32 n = n := Nat.mod_eq_of_lt h

theorem shiftLeft_or_eq_add (m c : Nat) (hc : c < 2 ^ 16) :
    (m <<< 16) ||| c = m * 2 ^ 16 + c := by
  rw [Nat.shiftLeft_eq, Nat.mul_comm, Nat.mul_add_lt_is_or hc]

theorem decompose_eq (code : Nat) : decompose code = (code / 2 ^ 16, code % 2 ^ 16) := by
  unfold decompose
  rw [Nat.shiftRight_eq_div_pow]
  have h : (0xFFFF : Nat) = 2 ^ 16 - 1 := by norm_num
  rw [h, Nat.and_pow_two_sub_one_eq_mod]

/-! ## Round trip of the encoding -/

/-- C1: for every `module_id` and `cause_id` that each fit in 16 bits,
`decompose (compose module_id cause_id) = (module_id, cause_id)`. -/
theorem decompose_compose (module_id cause_id : Nat)
    (hm : module_id < 2 ^ 16) (hc : cause_id < 2 ^ 16) :
    decompose (compose module_id cause_id) = (module_id, cause_id) := by
  have hlt : module_id * 2 ^ 16 + cause_id < 2 ^ 32 := by omega
  rw [decompose_eq, compose, shiftLeft_or_eq_add _ _ hc, u32_of_lt hlt]
  refine Prod.ext ?_ ?_ <;> simp <;> omega

/-- Witness for C1 at the module identifier `0x8800` of the header comment and cause `0x00A0`. -/
theorem decompose_compose_witness :
    (0x8800 : Nat) < 2 ^ 16 ∧ (0x00A0 : Nat) < 2 ^ 16 ∧
      decompose (compose 0x8800 0x00A0) = (0x8800, 0x00A0) :=
  ⟨by norm_num, by norm_num, decompose_compose 0x8800 0x00A0 (by norm_num) (by norm_num)⟩

/-! ## Distinctness of the module bases -/

theorem u32_u32_add (s a c : Nat) : u32 (u32 (s + a) + c) = u32 (s + (a + c)) := by
  unfold u32; omega

theorem u32_add_inj {s a b : Nat} (ha : a < 2 ^ 32) (hb : b < 2 ^ 32)
    (h : u32 (s + a) = u32 (s + b)) : a = b := by
  unfold u32 at h; omega

theorem nodup_map_u32_add (s : Nat) (l : List Nat) (hl : ∀ x ∈ l, x < 2 ^ 32) (hn : l.Nodup) :
    (l.map (fun o => u32 (s + o))).Nodup :=
  List.Nodup.map_on (fun x hx y hy h => u32_add_inj (hl x hx) (hl y hy) h) hn

theorem Module.base_eq (start : Nat) (m : Module) :
    m.base start = u32 (start + 0x100 * m.slot) := by
  cases m <;> rfl

theorem Module.slot_le (m : Module) : m.slot ≤ 0x25 := by
  cases m <;> decide

theorem Module.slot_injective {m₁ m₂ : Module} (h : m₁.slot = m₂.slot) : m₁ = m₂ := by
  cases m₁ <;> cases m₂ <;> first | rfl | (exact absurd h (by decide))

theorem module_bases_eq_map (start : Nat) :
    module_bases start = Module.all.map (Module.base start) := rfl

/-- C2: for every value of `IOT_ERR_BASE_START`, in 32-bit unsigned arithmetic, the eleven
module base constants are pairwise distinct, distinct modules have distinct bases, and the
windows of `0x0100` codes that start at the bases of two distinct modules never overlap. -/
theorem module_bases_pairwise_distinct (start : Nat) :
    (module_bases start).Pairwise (fun a b => a ≠ b) ∧
    (∀ m₁ m₂ : Module, m₁ ≠ m₂ → m₁.base start ≠ m₂.base start) ∧
    (∀ m₁ m₂ : Module, m₁ ≠ m₂ → ∀ c₁ c₂ : Nat, c₁ < 0x0100 → c₂ < 0x0100 →
      u32 (m₁.base start + c₁) ≠ u32 (m₂.base start + c₂)) := by
  have key : ∀ m₁ m₂ : Module, m₁ ≠ m₂ → ∀ c₁ c₂ : Nat, c₁ < 0x0100 → c₂ < 0x0100 →
      u32 (m₁.base start + c₁) ≠ u32 (m₂.base start + c₂) := by
    intro m₁ m₂ hne c₁ c₂ h₁ h₂ heq
    rw [Module.base_eq, Module.base_eq, u32_u32_add, u32_u32_add] at heq
    have hs : m₁.slot ≠ m₂.slot := fun h => hne (Module.slot_injective h)
    have l₁ := m₁.slot_le
    have l₂ := m₂.slot_le
    have := u32_add_inj (s := start) (a := 0x100 * m₁.slot + c₁) (b := 0x100 * m₂.slot + c₂)
      (by omega) (by omega) heq
    omega
  have inj : ∀ m₁ m₂ : Module, m₁ ≠ m₂ → m₁.base start ≠ m₂.base start := by
    intro m₁ m₂ hne heq
    have h₁ : u32 (m₁.base start + 0) = m₁.base start := by
      rw [Module.base_eq, u32_u32_add, Nat.add_zero]
    have h₂ : u32 (m₂.base start + 0) = m₂.base start := by
      rw [Module.base_eq, u32_u32_add, Nat.add_zero]
    exact key m₁ m₂ hne 0 0 (by norm_num) (by norm_num) (by rw [h₁, h₂, heq])
  refine ⟨?_, inj, key⟩
  rw [module_bases_eq_map]
  show (Module.all.map (Module.base start)).Nodup
  exact List.Nodup.map_on (fun x _ y _ h => by_contra fun hne => inj x y hne h) (by decide)

/-! ## The table of module-specific codes agrees with the `#define`s -/

theorem module_error_defs_keys (start : Nat) :
    (module_error_defs start).map (fun d => (d.owner, d.cause)) = module_error_keys := by
  simp only [module_error_keys, module_error_defs, List.map]

theorem module_error_keys_nodup : module_error_keys.Nodup := by decide

theorem module_error_keys_cause :
    ∀ k ∈ module_error_keys, 0x0040 ≤ k.2 ∧ k.2 ≤ 0x0046 := by decide

theorem module_error_defs_nodup (start : Nat) : (module_error_defs start).Nodup :=
  List.Nodup.of_map _ (by rw [module_error_defs_keys]; exact module_error_keys_nodup)

theorem module_error_defs_cause (start : Nat) :
    ∀ d ∈ module_error_defs start, 0x0040 ≤ d.cause ∧ d.cause ≤ 0x0046 := by
  intro d hd
  have hk : (d.owner, d.cause) ∈ module_error_keys := by
    rw [← module_error_defs_keys start]
    exact List.mem_map_of_mem (fun d => (d.owner, d.cause)) hd
  exact module_error_keys_cause _ hk

theorem module_error_keys_le :
    ∀ k ∈ module_error_keys, 0x100 * k.1.slot + k.2 ≤ 0x2542 := by decide

theorem module_error_defs_le (start : Nat) :
    ∀ d ∈ module_error_defs start, 0x100 * d.owner.slot + d.cause ≤ 0x2542 := by
  intro d hd
  have hk : (d.owner, d.cause) ∈ module_error_keys := by
    rw [← module_error_defs_keys start]
    exact List.mem_map_of_mem (fun d => (d.owner, d.cause)) hd
  exact module_error_keys_le _ hk

theorem common_literals_le :
    ∀ k ∈ [0x0000, 0x0001, 0x0002, 0x0003, 0x0004, 0x0005, 0x0010, 0x0011, 0x0012],
      k ≤ 0x0012 := by decide

/-- Every entry of the table is the owner's base plus the literal cause, as a `uint32_t`. -/
theorem module_error_defs_value (start : Nat) :
    ∀ d ∈ module_error_defs start, d.value = u32 (d.owner.base start + d.cause) := by
  intro d hd
  simp only [module_error_defs, List.mem_cons, List.mem_singleton, List.not_mem_nil,
    or_false] at hd
  rcases hd with h | h | h | h | h | h | h | h | h | h | h | h | h | h | h | h | h | h | h | h |
    h | h | h | h | h | h | h | h <;> subst h <;> rfl

theorem module_error_defs_value_eq (start : Nat) :
    ∀ d ∈ module_error_defs start, d.value = u32 (start + (0x100 * d.owner.slot + d.cause)) := by
  intro d hd
  rw [module_error_defs_value start d hd, Module.base_eq, u32_u32_add]

/-- Two entries of the table with the same value have the same owner and the same cause. -/
theorem module_error_defs_value_inj (start : Nat) (d₁ d₂ : ErrorDef)
    (h₁ : d₁ ∈ module_error_defs start) (h₂ : d₂ ∈ module_error_defs start)
    (h : d₁.value = d₂.value) : d₁ = d₂ := by
  have hv := h
  rw [module_error_defs_value_eq start d₁ h₁, module_error_defs_value_eq start d₂ h₂] at h
  have c₁ := module_error_defs_cause start d₁ h₁
  have c₂ := module_error_defs_cause start d₂ h₂
  have l₁ := d₁.owner.slot_le
  have l₂ := d₂.owner.slot_le
  have e := u32_add_inj (by omega) (by omega) h
  have hs : d₁.owner.slot = d₂.owner.slot := by omega
  have hc : d₁.cause = d₂.cause := by omega
  have ho : d₁.owner = d₂.owner := Module.slot_injective hs
  cases d₁; cases d₂; simp_all

/-! ## The registry is collision-free -/

/-- C4: for every value of `IOT_ERR_BASE_START`, in 32-bit unsigned arithmetic, the values of
all module-specific error codes are pairwise distinct; within one module no two `#define`s
use the same cause, and a code of one module never equals a code of another module. -/
theorem module_error_codes_pairwise_distinct (start : Nat) :
    (module_error_codes start).Pairwise (fun a b => a ≠ b) ∧
    ((module_error_defs start).map (fun d => (d.owner, d.cause))).Pairwise (fun a b => a ≠ b) ∧
    (∀ d₁ ∈ module_error_defs start, ∀ d₂ ∈ module_error_defs start,
      d₁.owner ≠ d₂.owner → d₁.value ≠ d₂.value) := by
  refine ⟨?_, ?_, ?_⟩
  · show ((module_error_defs start).map ErrorDef.value).Nodup
    exact List.Nodup.map_on (fun x hx y hy h => module_error_defs_value_inj start x y hx hy h)
      (module_error_defs_nodup start)
  · rw [module_error_defs_keys]
    exact module_error_keys_nodup
  · intro d₁ h₁ d₂ h₂ hne heq
    exact hne (congrArg ErrorDef.owner (module_error_defs_value_inj start d₁ d₂ h₁ h₂ heq))

/-! ## The common causes -/

theorem common_error_codes_eq_map (common : Nat) :
    common_error_codes common =
      [0x0000, 0x0001, 0x0002, 0x0003, 0x0004, 0x0005, 0x0010, 0x0011, 0x0012].map
        (fun k => u32 (common + k)) := rfl

/-- C8: for every value of `SDK_COMMON_ERROR_BASE`, in 32-bit unsigned arithmetic, the mapping
from the nine common causes to their `SDK_ERR_*` constants is injective, the nine constants
of the header are pairwise distinct, and they are exactly the values of the mapping. -/
theorem common_cause_injective (common : Nat) :
    Function.Injective (common_cause common) ∧
    (common_error_codes common).Pairwise (fun a b => a ≠ b) ∧
    (∀ c, c ∈ common_error_codes common ↔ ∃ k, common_cause common k = c) := by
  refine ⟨?_, ?_, ?_⟩
  · intro k₁ k₂ h
    cases k₁ <;> cases k₂ <;> first
      | rfl
      | (exfalso
         simp only [common_cause, SDK_ERR_MODULE_NOT_INITIALZED, SDK_ERR_MUTEX_INIT_FAILED,
           SDK_ERR_MUTEX_LOCK_FAILED, SDK_ERR_MUTEX_UNLOCK_FAILED,
           SDK_ERR_MUTEX_COND_INIT_FAILED, SDK_ERR_MODULE_ALREADY_INITIALZED,
           SDK_ERR_API_NOT_IMPLEMENTED, SDK_ERR_FEATURE_NOT_ENABLED,
           SDK_ERR_RX_PKT_TRUNCATED] at h
         have := u32_add_inj (by norm_num) (by norm_num) h
         omega)
  · rw [common_error_codes_eq_map]
    exact nodup_map_u32_add common _ (by decide) (by decide)
  · intro c
    constructor
    · intro hc
      simp only [common_error_codes, List.mem_cons, List.mem_singleton, List.not_mem_nil,
        or_false] at hc
      rcases hc with h | h | h | h | h | h | h | h | h
      · exact ⟨.NOT_INITIALIZED, h.symm⟩
      · exact ⟨.MUTEX_INIT_FAILED, h.symm⟩
      · exact ⟨.MUTEX_LOCK_FAILED, h.symm⟩
      · exact ⟨.MUTEX_UNLOCK_FAILED, h.symm⟩
      · exact ⟨.MUTEX_COND_INIT_FAILED, h.symm⟩
      · exact ⟨.ALREADY_INITIALIZED, h.symm⟩
      · exact ⟨.API_NOT_IMPLEMENTED, h.symm⟩
      · exact ⟨.FEATURE_NOT_ENABLED, h.symm⟩
      · exact ⟨.RX_PACKET_TRUNCATED, h.symm⟩
    · rintro ⟨k, rfl⟩
      cases k <;> simp [common_error_codes, common_cause]

/-! ## The zero code -/

/-- C5: when `SDK_COMMON_ERROR_BASE` is not zero and no addition of the header wraps around
`2 ^ 32`, none of the nine common codes and none of the module-specific codes is `0`. -/
theorem error_codes_ne_zero (start common : Nat) (hcommon : common ≠ 0)
    (hcw : common + 0x0012 < 2 ^ 32) (hsw : start + 0x2542 < 2 ^ 32) :
    (∀ c ∈ common_error_codes common, c ≠ 0) ∧ (∀ c ∈ module_error_codes start, c ≠ 0) := by
  constructor
  · intro c hc
    rw [common_error_codes_eq_map] at hc
    obtain ⟨k, hk, rfl⟩ := List.mem_map.mp hc
    have hk' : k ≤ 0x0012 := common_literals_le k hk
    rw [u32_of_lt (by omega)]
    omega
  · intro c hc
    obtain ⟨d, hd, rfl⟩ := List.mem_map.mp hc
    rw [module_error_defs_value_eq start d hd]
    have hcause := module_error_defs_cause start d hd
    have hle := module_error_defs_le start d hd
    rw [u32_of_lt (by omega)]
    omega

/-- Witness for C5 at `IOT_ERR_BASE_START = 0xA000` and `SDK_COMMON_ERROR_BASE = 0x00A0`. -/
theorem error_codes_ne_zero_witness :
    (0x00A0 : Nat) ≠ 0 ∧ 0x00A0 + 0x0012 < 2 ^ 32 ∧ 0xA000 + 0x2542 < 2 ^ 32 ∧
    (∀ c ∈ common_error_codes 0x00A0, c ≠ 0) ∧ (∀ c ∈ module_error_codes 0xA000, c ≠ 0) :=
  ⟨by norm_num, by norm_num, by norm_num,
    error_codes_ne_zero 0xA000 0x00A0 (by norm_num) (by norm_num) (by norm_num)⟩

/-! ## The two cause pools -/

/-- C9: the causes that the module-specific `#define`s add to a module base are exactly the
values `0x0040` to `0x0046`, and for every 32-bit `SDK_COMMON_ERROR_BASE` of at least `0x0047`
none of them equals one of the nine common codes. -/
theorem module_specific_causes_disjoint_common (common : Nat) (hlo : 0x0047 ≤ common)
    (hhi : common < 2 ^ 32) :
    (∀ c, c ∈ module_specific_causes ↔ 0x0040 ≤ c ∧ c ≤ 0x0046) ∧
    (∀ c ∈ module_specific_causes, ∀ k ∈ common_error_codes common, c ≠ k) := by
  have hrange : ∀ c, c ∈ module_specific_causes ↔ 0x0040 ≤ c ∧ c ≤ 0x0046 := by
    intro c
    constructor
    · intro hc
      obtain ⟨d, hd, rfl⟩ := List.mem_map.mp hc
      exact module_error_defs_cause 0 d hd
    · rintro ⟨h₁, h₂⟩
      have : ∀ n, n < 7 → 0x0040 + n ∈ module_specific_causes := by decide
      have h := this (c - 0x0040) (by omega)
      rwa [Nat.add_sub_cancel' h₁] at h
  refine ⟨hrange, ?_⟩
  intro c hc k hk
  have hcr := (hrange c).mp hc
  rw [common_error_codes_eq_map] at hk
  obtain ⟨j, hj, rfl⟩ := List.mem_map.mp hk
  have hj' : j ≤ 0x0012 := common_literals_le j hj
  unfold u32
  omega

/-- Witness for C9 at the common base `0x00A0` that the header comment documents. -/
theorem module_specific_causes_disjoint_common_witness :
    (0x0047 : Nat) ≤ 0x00A0 ∧ (0x00A0 : Nat) < 2 ^ 32 ∧
    (∀ c, c ∈ module_specific_causes ↔ 0x0040 ≤ c ∧ c ≤ 0x0046) ∧
    (∀ c ∈ module_specific_causes, ∀ k ∈ common_error_codes 0x00A0, c ≠ k) :=
  ⟨by norm_num, by norm_num,
    module_specific_causes_disjoint_common 0x00A0 (by norm_num) (by norm_num)⟩

/-! ## Recovering the owner of a code -/

/-- C10: when no addition of the header wraps around `2 ^ 32`, every module-specific code lies
in the window of `0x0100` values that starts at the base of its module, no base of another
module lies between that base and the code, and the base of its module is the greatest of the
eleven bases that does not exceed the code. -/
theorem owner_base_is_greatest_base_le (start : Nat) (hsw : start + 0x2542 < 2 ^ 32) :
    ∀ d ∈ module_error_defs start,
      d.owner.base start ≤ d.value ∧ d.value < d.owner.base start + 0x0100 ∧
      (∀ m : Module, ¬ (d.owner.base start < m.base start ∧ m.base start ≤ d.value)) ∧
      d.owner.base start ∈ module_bases start ∧
      (∀ b ∈ module_bases start, b ≤ d.value → b ≤ d.owner.base start) := by
  intro d hd
  have hv := module_error_defs_value_eq start d hd
  have hcause := module_error_defs_cause start d hd
  have hle := module_error_defs_le start d hd
  rw [u32_of_lt (by omega)] at hv
  have hb : ∀ m : Module, m.base start = start + 0x100 * m.slot := by
    intro m
    have := m.slot_le
    rw [Module.base_eq, u32_of_lt (by omega)]
  have hno : ∀ m : Module, m.base start ≤ d.value → m.base start ≤ d.owner.base start := by
    intro m hm
    rw [hb m] at hm ⊢
    rw [hb d.owner]
    omega
  refine ⟨by rw [hb]; omega, by rw [hb]; omega, ?_, ?_, ?_⟩
  · rintro m ⟨h₁, h₂⟩
    exact absurd (hno m h₂) (by omega)
  · rw [module_bases_eq_map]
    exact List.mem_map_of_mem _ (by cases d.owner <;> decide)
  · intro b hb'
    rw [module_bases_eq_map] at hb'
    obtain ⟨m, _, rfl⟩ := List.mem_map.mp hb'
    exact hno m

/-- Witness for C10 at `IOT_ERR_BASE_START = 0xA000`. -/
theorem owner_base_is_greatest_base_le_witness :
    0xA000 + 0x2542 < 2 ^ 32 ∧
    ∀ d ∈ module_error_defs 0xA000,
      d.owner.base 0xA000 ≤ d.value ∧ d.value < d.owner.base 0xA000 + 0x0100 ∧
      (∀ m : Module, ¬ (d.owner.base 0xA000 < m.base 0xA000 ∧ m.base 0xA000 ≤ d.value)) ∧
      d.owner.base 0xA000 ∈ module_bases 0xA000 ∧
      (∀ b ∈ module_bases 0xA000, b ≤ d.value → b ≤ d.owner.base 0xA000) :=
  ⟨by norm_num, owner_base_is_greatest_base_le 0xA000 (by norm_num)⟩

/-! ## The header comment against the `#define`s

The comment at the top of the header says that the most significant 16 bits of a code identify
the module and the least significant 16 bits give the cause.  The `#define`s add the cause to
a base, and the bases are `0x0100` apart. -/

/-- C3, evaluated at `IOT_ERR_BASE_START = 0xA000`: `UDP_BAD_CHECKSUM` is `0xC241`, its upper
16 bits are `0` and not the module base `0xC200`, its lower 16 bits are `0xC241` and not the
cause `0x0041`, it differs from `compose 0xC200 0x0041`, and `ICMP6_BAD_CHECKSUM` has the same
upper 16 bits. -/
theorem udp_bad_checksum_not_composed :
    UDP_BAD_CHECKSUM 0xA000 = 0xC241 ∧
    IOT_UDP6_ERR_BASE 0xA000 = 0xC200 ∧
    decompose (UDP_BAD_CHECKSUM 0xA000) = (0, 0xC241) ∧
    compose (IOT_UDP6_ERR_BASE 0xA000) 0x0041 = 0xC2000041 ∧
    ICMP6_BAD_CHECKSUM 0xA000 = 0xC141 ∧
    (decompose (ICMP6_BAD_CHECKSUM 0xA000)).1 = (decompose (UDP_BAD_CHECKSUM 0xA000)).1 := by
  decide

/-- For every `IOT_ERR_BASE_START`, two codes of different modules share their upper 16 bits:
`UDP_BAD_CHECKSUM` shares them with `ICMP6_BAD_CHECKSUM` or with
`COAP_MESSAGE_ERROR_INVALID_CONF`. -/
theorem upper_bits_shared_by_two_modules (start : Nat) :
    (decompose (ICMP6_BAD_CHECKSUM start)).1 = (decompose (UDP_BAD_CHECKSUM start)).1 ∨
    (decompose (UDP_BAD_CHECKSUM start)).1 =
      (decompose (COAP_MESSAGE_ERROR_INVALID_CONF start)).1 := by
  simp only [decompose_eq, ICMP6_BAD_CHECKSUM, UDP_BAD_CHECKSUM, COAP_MESSAGE_ERROR_INVALID_CONF,
    IOT_ICMP6_ERR_BASE, IOT_UDP6_ERR_BASE, IOT_COAP_ERR_BASE, IOT_ERR_BASE, u32]
  omega

/-- For every `IOT_ERR_BASE_START`, the upper 16 bits of `BLE_IPSP_RX_PKT_TRUNCATED` or of
`BLE_6LOWPAN_CID_NOT_FOUND` differ from the base of the module that defines the code. -/
theorem upper_bits_ne_module_base (start : Nat) :
    (decompose (BLE_IPSP_RX_PKT_TRUNCATED start)).1 ≠ BLE_IPSP_ERR_BASE start ∨
    (decompose (BLE_6LOWPAN_CID_NOT_FOUND start)).1 ≠ BLE_6LOWPAN_ERR_BASE start := by
  have key : ∀ b : Nat, b < 2 ^ 32 → u32 (b + 0x0040) / 2 ^ 16 = b → b = 0 := by
    intro b hb h
    unfold u32 at h
    by_cases hw : b + 0x0040 < 2 ^ 32
    · rw [Nat.mod_eq_of_lt hw] at h
      omega
    · have hm : (b + 0x0040) % 2 ^ 32 = b + 0x0040 - 2 ^ 32 := by omega
      rw [hm] at h
      omega
  by_contra hcon
  push_neg at hcon
  obtain ⟨h₁, h₂⟩ := hcon
  simp only [decompose_eq, BLE_IPSP_RX_PKT_TRUNCATED, BLE_6LOWPAN_CID_NOT_FOUND] at h₁ h₂
  have z₁ := key _ (u32_lt _) h₁
  have z₂ := key _ (u32_lt _) h₂
  have e : u32 (start + 0x0100) = u32 (start + 0x0200) := by
    simpa only [BLE_IPSP_ERR_BASE, BLE_6LOWPAN_ERR_BASE, IOT_ERR_BASE] using z₁.trans z₂.symm
  exact absurd (u32_add_inj (by norm_num) (by norm_num) e) (by norm_num)

/-! ## The UDP input contract -/

theorem udp_input_not_ready (start common : Nat) (m : UdpModule) (p_interface : iot_interface_t)
    (p_ip_header : ipv6_header_t) (p_packet : iot_pbuffer_t) (h : m.ready = false) :
    udp_input start common m p_interface p_ip_header p_packet =
      ⟨compose (IOT_UDP6_ERR_BASE start) (SDK_ERR_MODULE_NOT_INITIALZED common), []⟩ := by
  simp [udp_input, h]

/-- C6: `udp_input` called in a state in which `udp_init` has not run returns the module base
`IOT_UDP6_ERR_BASE` composed with `SDK_ERR_MODULE_NOT_INITIALZED`, for every interface, IP
header, packet and table of endpoints, and invokes no handler (no event happens at all). -/
theorem udp_input_before_init (start common : Nat) (m : UdpModule)
    (p_interface : iot_interface_t) (p_ip_header : ipv6_header_t) (p_packet : iot_pbuffer_t)
    (h : m.ready = false) :
    (udp_input start common m p_interface p_ip_header p_packet).err_code =
      compose (IOT_UDP6_ERR_BASE start) (SDK_ERR_MODULE_NOT_INITIALZED common) ∧
    (udp_input start common m p_interface p_ip_header p_packet).events = [] := by
  rw [udp_input_not_ready start common m p_interface p_ip_header p_packet h]
  exact ⟨rfl, rfl⟩

/-- Witness for C6: a well-formed datagram to the registered port 5683, fed before `udp_init`. -/
theorem udp_input_before_init_witness :
    (UdpModule.uninitialized [5683]).ready = false ∧
    (udp_input 0xA000 0x00A0 (UdpModule.uninitialized [5683]) ⟨0⟩
        ⟨List.replicate 15 0 ++ [1], List.replicate 15 0 ++ [2], 17, 64⟩
        ⟨[0x30, 0x39, 0x16, 0x33, 0x00, 0x0A, 0x51, 0x02, 0x68, 0x69], 0, 10⟩).err_code =
      compose (IOT_UDP6_ERR_BASE 0xA000) (SDK_ERR_MODULE_NOT_INITIALZED 0x00A0) ∧
    (udp_input 0xA000 0x00A0 (UdpModule.uninitialized [5683]) ⟨0⟩
        ⟨List.replicate 15 0 ++ [1], List.replicate 15 0 ++ [2], 17, 64⟩
        ⟨[0x30, 0x39, 0x16, 0x33, 0x00, 0x0A, 0x51, 0x02, 0x68, 0x69], 0, 10⟩).events = [] :=
  ⟨rfl, udp_input_before_init 0xA000 0x00A0 (UdpModule.uninitialized [5683]) ⟨0⟩
    ⟨List.replicate 15 0 ++ [1], List.replicate 15 0 ++ [2], 17, 64⟩
    ⟨[0x30, 0x39, 0x16, 0x33, 0x00, 0x0A, 0x51, 0x02, 0x68, 0x69], 0, 10⟩ rfl⟩

/-- C7: after `udp_init`, `udp_input` on a packet whose remaining length is smaller than the
8-byte UDP header returns `UDP_TRUNCATED_PACKET`; the checksum is not validated and no handler
is invoked (no event happens at all). -/
theorem udp_input_truncated (start common : Nat) (m : UdpModule)
    (p_interface : iot_interface_t) (p_ip_header : ipv6_header_t) (p_packet : iot_pbuffer_t)
    (hready : m.ready = true) (hlen : p_packet.length < UDP_HEADER_SIZE) :
    (udp_input start common m p_interface p_ip_header p_packet).err_code =
      UDP_TRUNCATED_PACKET start ∧
    (udp_input start common m p_interface p_ip_header p_packet).events = [] := by
  simp [udp_input, hready, hlen]

/-- Witness for C7: a packet of remaining length 5, fed after `udp_init`. -/
theorem udp_input_truncated_witness :
    (udp_init 0xA000 0x00A0 (UdpModule.uninitialized [5683])).2.ready = true ∧
    (5 : Nat) < UDP_HEADER_SIZE ∧
    (udp_input 0xA000 0x00A0 (udp_init 0xA000 0x00A0 (UdpModule.uninitialized [5683])).2 ⟨0⟩
        ⟨List.replicate 15 0 ++ [1], List.replicate 15 0 ++ [2], 17, 64⟩
        ⟨[0x30, 0x39, 0x16, 0x33, 0x00], 0, 5⟩).err_code = UDP_TRUNCATED_PACKET 0xA000 ∧
    (udp_input 0xA000 0x00A0 (udp_init 0xA000 0x00A0 (UdpModule.uninitialized [5683])).2 ⟨0⟩
        ⟨List.replicate 15 0 ++ [1], List.replicate 15 0 ++ [2], 17, 64⟩
        ⟨[0x30, 0x39, 0x16, 0x33, 0x00], 0, 5⟩).events = [] :=
  ⟨rfl, by decide,
    udp_input_truncated 0xA000 0x00A0 (udp_init 0xA000 0x00A0 (UdpModule.uninitialized [5683])).2
      ⟨0⟩ ⟨List.replicate 15 0 ++ [1], List.replicate 15 0 ++ [2], 17, 64⟩
      ⟨[0x30, 0x39, 0x16, 0x33, 0x00], 0, 5⟩ rfl (by decide)⟩

/-! ### The model runs past the length check -/

/-- After `udp_init`, a well-formed datagram to the registered port 5683 is delivered: the
checksum is validated, the handler is invoked once with the bytes after offset 8, and the
result is `NRF_SUCCESS`. -/
theorem udp_input_delivers :
    udp_input 0xA000 0x00A0 (udp_init 0xA000 0x00A0 (UdpModule.uninitialized [5683])).2 ⟨0⟩
        ⟨List.replicate 15 0 ++ [1], List.replicate 15 0 ++ [2], 17, 64⟩
        ⟨[0x30, 0x39, 0x16, 0x33, 0x00, 0x0A, 0x51, 0x02, 0x68, 0x69], 0, 10⟩ =
      ⟨NRF_SUCCESS, [.checksum_validation, .handler_invocation 5683 [0x68, 0x69]]⟩ := by
  decide

/-- After `udp_init`, the same datagram with one payload bit flipped fails with
`UDP_BAD_CHECKSUM`, and no handler is invoked. -/
theorem udp_input_bad_checksum :
    udp_input 0xA000 0x00A0 (udp_init 0xA000 0x00A0 (UdpModule.uninitialized [5683])).2 ⟨0⟩
        ⟨List.replicate 15 0 ++ [1], List.replicate 15 0 ++ [2], 17, 64⟩
        ⟨[0x30, 0x39, 0x16, 0x33, 0x00, 0x0A, 0x51, 0x02, 0x68, 0x68], 0, 10⟩ =
      ⟨UDP_BAD_CHECKSUM 0xA000, [.checksum_validation]⟩ := by
  decide

/-- The same datagram fed to a module without a registered endpoint fails with the no-listener
cause, and no handler is invoked. -/
theorem udp_input_no_listener :
    udp_input 0xA000 0x00A0 (udp_init 0xA000 0x00A0 (UdpModule.uninitialized [])).2 ⟨0⟩
        ⟨List.replicate 15 0 ++ [1], List.replicate 15 0 ++ [2], 17, 64⟩
        ⟨[0x30, 0x39, 0x16, 0x33, 0x00, 0x0A, 0x51, 0x02, 0x68, 0x69], 0, 10⟩ =
      ⟨udp_no_listener 0xA000, [.checksum_validation]⟩ := by
  decide

/-- A second `udp_init` fails with the already-initialized cause and leaves the state. -/
theorem udp_init_twice (start common : Nat) (endpoints : List Nat) :
    (udp_init start common (udp_init start common (UdpModule.uninitialized endpoints)).2) =
      (compose (IOT_UDP6_ERR_BASE start) (SDK_ERR_MODULE_ALREADY_INITIALZED common),
        { ready := true, endpoints := endpoints }) := by
  simp [udp_init, UdpModule.uninitialized]

end IotErrors
